import Mathlib

/-!
Verification development for the research-agent pipeline
(`src/research_agent/`): a shallow embedding of the executor, verifier,
synthesizer and tool layers, followed by theorems about the embedded code.

Python dictionaries are embedded as association lists built with an
insert-or-update operation that preserves first-insertion order, matching
CPython dict semantics.  Python `Any`-typed artifact values are embedded as
the closed sum `PyObj` of the value shapes the program actually stores,
together with Python truthiness.  Machine integers are `Int` (Python ints
are unbounded).  Fallible collaborator calls (the LLM client) are
environment parameters of type `Except`/`Option`.
-/

/-- Insert-or-update on an association list, mirroring CPython `d[k] = v`:
an existing key keeps its position and gets the new value, a fresh key is
appended at the end. -/
def dictInsert {α β : Type} [DecidableEq α] (d : List (α × β)) (k : α) (v : β) :
    List (α × β) :=
  match d with
  | [] => [(k, v)]
  | (k', v') :: rest =>
    if k' = k then (k, v) :: rest else (k', v') :: dictInsert rest k v

/-- Lookup in an association list, mirroring Python `d.get(k)`. -/
def dictLookup {α β : Type} [DecidableEq α] (d : List (α × β)) (k : α) :
    Option β :=
  match d with
  | [] => none
  | (k', v') :: rest => if k' = k then some v' else dictLookup rest k

-- ------------------------------------------------------------------
-- Data model (src/research_agent/schema.py)
-- ------------------------------------------------------------------

/-- schema.py `ExecutionMode`. -/
inductive ExecutionMode
  | normal
  | stress_test
deriving DecidableEq

/-- schema.py `FinalOutcome`. -/
inductive FinalOutcome
  | answered
  | abstained
deriving DecidableEq

/-- schema.py `ResearchStep.type`: the closed `Literal` of step kinds. -/
inductive StepType
  | research
  | compare
  | synthesize
deriving DecidableEq

/-- schema.py `ResearchStep`. -/
structure ResearchStep where
  id : Int
  type : StepType
  description : String
  inputs : Option (List Int)
  constraints : Option (List String)
deriving DecidableEq

/-- schema.py `ResearchPlan`. -/
structure ResearchPlan where
  research_goal : String
  assumptions : List String
  steps : List ResearchStep
  stop_conditions : List (String × Int)
deriving DecidableEq

/-- schema.py `ResearchInput`. -/
structure ResearchInput where
  topic : String
  scope : Option String
  constraints : Option (List String)
deriving DecidableEq

/-- schema.py `ResearchOutput`.  `confidence` is one of the literal strings
"low", "medium", "high". -/
structure ResearchOutput where
  topic : String
  summary : String
  key_points : List String
  assumptions : List String
  confidence : String
  gaps : List String
  sources : Option (List String)
deriving DecidableEq

/-- schema.py `ComparisonInput`; `items` is a dict name -> ResearchOutput. -/
structure ComparisonInput where
  items : List (String × ResearchOutput)
  dimensions : List String
deriving DecidableEq

/-- schema.py `ComparisonOutput`; `contrasts` is dimension -> item -> text. -/
structure ComparisonOutput where
  dimensions : List String
  contrasts : List (String × List (String × String))
  tradeoffs : List String
  uncertainties : List String
deriving DecidableEq

/-- schema.py `SynthesisOutput`. -/
structure SynthesisOutput where
  directional_summary : String
  hypotheses : List String
  supported_by : List (String × List Int)
  open_questions : List String
  confidence : String
deriving DecidableEq

/-- schema.py `VerificationOutput`.  `status` is one of "pass", "warn",
"fail"; `confidence_adjustment` is "none" or "downgrade". -/
structure VerificationOutput where
  status : String
  final_outcome : FinalOutcome
  abstention_reason : Option String
  coverage_check : List (Int × Bool)
  overclaim_detected : Bool
  missing_assumptions : List String
  required_disclaimers : List String
  confidence_adjustment : String
deriving DecidableEq

-- ------------------------------------------------------------------
-- Python `Any` values stored by the executor, with truthiness
-- ------------------------------------------------------------------

/-- The values the program actually passes as `output` to
`ExecutionLog.add_entry`: `None`, a plain string (the synthesis marker),
a `ResearchOutput`, or a `ComparisonOutput`. -/
inductive PyObj
  | none
  | str (s : String)
  | research (r : ResearchOutput)
  | comparison (c : ComparisonOutput)
deriving DecidableEq

/-- Python truthiness of a `PyObj`: `None` is falsy, a string is truthy iff
nonempty, pydantic model instances are truthy. -/
def PyObj.truthy : PyObj → Bool
  | PyObj.none => false
  | PyObj.str s => s ≠ ""
  | PyObj.research _ => true
  | PyObj.comparison _ => true

-- ------------------------------------------------------------------
-- ExecutionLog (src/research_agent/executor.py lines 12-27)
-- ------------------------------------------------------------------

/-- One entry of `ExecutionLog.log` (executor.py `add_entry`).  The wall
clock `timestamp` field carries no information the program reads back and
is omitted from the embedding. -/
structure StepRecord where
  step_id : Int
  status : String
  output : PyObj
  error : Option String
deriving DecidableEq

/-- executor.py `ExecutionLog`: the append-only record list plus the
artifacts dict (step id -> output object). -/
structure ExecutionLog where
  log : List StepRecord
  artifacts : List (Int × PyObj)
deriving DecidableEq

/-- executor.py `ExecutionLog.__init__`. -/
def emptyLog : ExecutionLog := { log := [], artifacts := [] }

/-- executor.py `ExecutionLog.add_entry` (lines 17-27): appends one record
whose `output` is nulled unless `status == "success"`, and registers the
output in `artifacts` exactly when the output argument is truthy
(`if output:`), regardless of status. -/
def ExecutionLog.add_entry (l : ExecutionLog) (step_id : Int) (status : String)
    (output : PyObj) (error : Option String) : ExecutionLog :=
  { log := l.log ++
      [{ step_id := step_id, status := status,
         output := if status = "success" then output else PyObj.none,
         error := error }],
    artifacts :=
      if output.truthy then dictInsert l.artifacts step_id output
      else l.artifacts }

-- ------------------------------------------------------------------
-- Synthesizer supported_by coercion (src/research_agent/synthesizer.py 50-68)
-- ------------------------------------------------------------------

/-- A JSON list token of the shapes the coercion branches on: the code
keys its behavior on `isinstance(i, int)` and `isinstance(i, str)`. -/
inductive JsonTok
  | intTok (n : Int)
  | strTok (s : String)
deriving DecidableEq

/-- Python `''.join(filter(str.isdigit, s))`: the decimal digits of `s`
in order. -/
def digitsOf (s : String) : String := String.mk (s.data.filter Char.isDigit)

/-- Python `int(s)` on a nonempty all-digit string. -/
def digitsToInt (s : String) : Int :=
  Int.ofNat (s.data.foldl (fun a c => 10 * a + (c.toNat - 48)) 0)

/-- synthesizer.py lines 54-66: the per-hypothesis id-list cleaning loop —
integers are appended unchanged; strings keep only their digits and are
appended as the resulting integer when any digit remains. -/
def cleanIds (ids : List JsonTok) : List Int :=
  ids.foldl
    (fun acc i =>
      match i with
      | JsonTok.intTok n => acc ++ [n]
      | JsonTok.strTok s =>
        let digit_str := digitsOf s
        if digit_str = "" then acc else acc ++ [digitsToInt digit_str])
    []

/-- synthesizer.py lines 51-68: the `supported_by` cleaning over the parsed
dict (hypothesis text -> raw id tokens). -/
def cleanSupportedBy (sb : List (String × List JsonTok)) :
    List (String × List Int) :=
  sb.map (fun p => (p.1, cleanIds p.2))

/-- The per-token coercion rule exactly as the claim states it: integer
tokens kept, string tokens with digits replaced by the integer formed from
their digits, digit-free string tokens dropped. -/
def coerceTokClaim : JsonTok → Option Int
  | JsonTok.intTok n => some n
  | JsonTok.strTok s =>
    if digitsOf s = "" then Option.none else some (digitsToInt (digitsOf s))

-- ------------------------------------------------------------------
-- Dependency Validator (src/research_agent/executor.py lines 38-52)
-- ------------------------------------------------------------------

/-- The left-to-right scan of `Executor.validate_plan` with the `seen_ids`
set accumulated so far: reject a step whose id was already seen, reject a
step with a declared input id not yet seen, otherwise add the id and
continue.  (`if step.inputs:` skips both a `None` and an empty list, which
coincides with an `all` over `inputs.getD []`.) -/
def validateFrom (seen : List Int) : List ResearchStep → Bool
  | [] => true
  | step :: rest =>
    if step.id ∈ seen then false
    else if (step.inputs.getD []).all (fun x => decide (x ∈ seen)) then
      validateFrom (step.id :: seen) rest
    else false

/-- executor.py `Executor.validate_plan` (lines 38-52). -/
def Executor.validate_plan (plan : ResearchPlan) : Bool :=
  validateFrom [] plan.steps

-- ------------------------------------------------------------------
-- Tools (src/research_agent/tools.py)
-- ------------------------------------------------------------------

/-- The three canned degraded outcomes `random.choice` draws between in
stress mode (tools.py line 21); `sparse` models the "partial" branch. -/
inductive StressKind
  | sparse
  | contradictory
  | empty
deriving DecidableEq

/-- tools.py `execute_research` (lines 9-69).  The `random.choice` draw is
the explicit `choice` argument; apart from it the function is a pure
function of its input.  The LLM client parameter is never used by the
source function. -/
def execute_research (input_data : ResearchInput) (choice : StressKind)
    (mode : ExecutionMode) : ResearchOutput :=
  match mode with
  | ExecutionMode.stress_test =>
    match choice with
    | StressKind.empty =>
      { topic := input_data.topic,
        summary := "Insufficient data available to summarize.",
        key_points := [],
        assumptions := ["Data source unreachable in stress test"],
        confidence := "low",
        gaps := ["All information missing due to stress injection"],
        sources := some [] }
    | StressKind.contradictory =>
      { topic := input_data.topic,
        summary := "Conflicting reports found regarding " ++ input_data.topic ++ ".",
        key_points :=
          ["Source A claims " ++ input_data.topic ++ " is highly effective.",
           "Source B claims " ++ input_data.topic ++ " has no measurable impact."],
        assumptions := ["Conflicting methodologies in sources"],
        confidence := "low",
        gaps := ["Unable to reconcile Source A and Source B"],
        sources := some ["SourceA", "SourceB"] }
    | StressKind.sparse =>
      { topic := input_data.topic,
        summary := "Partial data found for " ++ input_data.topic ++ ".",
        key_points := ["Some evidence suggests relevance, but details are missing."],
        assumptions := ["Extrapolating from limited data"],
        confidence := "low",
        gaps := ["Critical metrics missing"],
        sources := some ["FragmentedDB"] }
  | ExecutionMode.normal =>
    { topic := input_data.topic,
      summary := "Research Summary for " ++ input_data.topic ++ " (Simulated Data)",
      key_points :=
        [input_data.topic ++ " is a complex subject.",
         "Recent studies (2024) show significant interest in " ++ input_data.topic ++ "."],
      assumptions := ["Results are simulated for demonstration"],
      confidence := "medium",
      gaps := ["Lack of live internet access in this environment"],
      sources := some ["SimulationDB"] }

/-- The dict comprehension of tools.py line 80:
`{d: {k: msg for k in items} for d in dimensions}`. -/
def ambiguousContrasts (items : List (String × ResearchOutput))
    (dimensions : List String) : List (String × List (String × String)) :=
  dimensions.foldl
    (fun acc d =>
      dictInsert acc d
        (items.foldl
          (fun inner p =>
            dictInsert inner p.1 "Ambiguous data prevented clear contrast")
          []))
    []

/-- tools.py `execute_compare` (lines 71-125).  The normal-mode LLM call
plus JSON parse is the `resp` argument: `Except.error e` models the
`generate` call raising (the exception propagates to the caller),
`Except.ok Option.none` a response the JSON/pydantic decode rejects (caught
internally, producing the fallback artifact), and `Except.ok (some c)` a
successfully decoded `ComparisonOutput`.  In stress mode no call is made. -/
def execute_compare (input_data : ComparisonInput)
    (resp : Except String (Option ComparisonOutput)) (mode : ExecutionMode) :
    Except String ComparisonOutput :=
  match mode with
  | ExecutionMode.stress_test =>
    Except.ok
      { dimensions := input_data.dimensions,
        contrasts := ambiguousContrasts input_data.items input_data.dimensions,
        tradeoffs := ["Unable to determine clear tradeoffs due to data noise."],
        uncertainties := ["High uncertainty in input data reliability."] }
  | ExecutionMode.normal =>
    match resp with
    | Except.error e => Except.error e
    | Except.ok (some data) => Except.ok data
    | Except.ok Option.none =>
      Except.ok
        { dimensions := input_data.dimensions,
          contrasts :=
            input_data.dimensions.foldl
              (fun acc d =>
                dictInsert acc d
                  (input_data.items.foldl
                    (fun inner p => dictInsert inner p.1 "Error generating contrast")
                    []))
              [],
          tradeoffs := ["Comparison generation failed"],
          uncertainties := ["LLM Error"] }

-- ------------------------------------------------------------------
-- Step Runner (src/research_agent/executor.py lines 54-116)
-- ------------------------------------------------------------------

/-- The external collaborators the executor consults: the `random.choice`
draw used by stress-mode research, and the comparison LLM call plus JSON
decode (see `execute_compare`). -/
structure Env where
  stressChoice : ResearchInput → StressKind
  compareResp : ComparisonInput → Except String (Option ComparisonOutput)

/-- The input-collection loop of the compare branch (executor.py lines
68-75): for each declared input id, take its artifact if it is a
`ResearchOutput`, keyed "Step_<id>"; anything absent or of another shape is
skipped with a warning. -/
def collectCompareItems (l : ExecutionLog) (inputs : List Int) :
    List (String × ResearchOutput) :=
  inputs.foldl
    (fun acc input_id =>
      match dictLookup l.artifacts input_id with
      | some (PyObj.research r) => dictInsert acc ("Step_" ++ toString input_id) r
      | _ => acc)
    []

/-- executor.py `Executor.execute_step` (lines 54-100): dispatch on the
step kind, append exactly one log record (success with the produced
artifact, or error), and return the success flag.  Research and synthesize
steps cannot raise in this program; a compare step raises when no valid
`ResearchOutput` input remains or when the comparison LLM call raises. -/
def Executor.execute_step (env : Env) (mode : ExecutionMode)
    (l : ExecutionLog) (step : ResearchStep) : ExecutionLog × Bool :=
  match step.type with
  | StepType.research =>
    let inp : ResearchInput :=
      { topic := step.description, scope := Option.none,
        constraints := step.constraints }
    let result := execute_research inp (env.stressChoice inp) mode
    (l.add_entry step.id "success" (PyObj.research result) Option.none, true)
  | StepType.compare =>
    let items := collectCompareItems l (step.inputs.getD [])
    if items = [] then
      (l.add_entry step.id "error" PyObj.none
        (some "Comparison step requires at least one valid ResearchOutput input."),
       false)
    else
      let inp : ComparisonInput :=
        { items := items,
          dimensions :=
            match step.constraints with
            | some (c :: cs) => c :: cs
            | _ => ["general"] }
      match execute_compare inp (env.compareResp inp) mode with
      | Except.ok result =>
        (l.add_entry step.id "success" (PyObj.comparison result) Option.none, true)
      | Except.error e =>
        (l.add_entry step.id "error" PyObj.none (some e), false)
  | StepType.synthesize =>
    (l.add_entry step.id "success" (PyObj.str "Synthesis Marker") Option.none, true)

/-- The step loop of executor.py `Executor.run` (lines 109-113): execute
steps in plan order, stopping after the first failure. -/
def Executor.runSteps (env : Env) (mode : ExecutionMode) :
    ExecutionLog → List ResearchStep → ExecutionLog
  | l, [] => l
  | l, step :: rest =>
    let r := Executor.execute_step env mode l step
    if r.2 then Executor.runSteps env mode r.1 rest else r.1

/-- executor.py `Executor.run` (lines 102-116): validate, then run the
step loop from the fresh per-run log; an invalid plan returns the untouched
empty log. -/
def Executor.run (env : Env) (mode : ExecutionMode) (plan : ResearchPlan) :
    ExecutionLog :=
  if Executor.validate_plan plan then
    Executor.runSteps env mode emptyLog plan.steps
  else emptyLog

/-- "The step at 0-based index k is the first to fail": every earlier step
succeeds (from the evolving log state) and step k fails. -/
def firstFailAt (env : Env) (mode : ExecutionMode) :
    ExecutionLog → List ResearchStep → Nat → Bool
  | _, [], _ => false
  | l, step :: _, 0 => !(Executor.execute_step env mode l step).2
  | l, step :: rest, k + 1 =>
    (Executor.execute_step env mode l step).2 &&
      firstFailAt env mode (Executor.execute_step env mode l step).1 rest k

-- ------------------------------------------------------------------
-- Verifier (src/research_agent/verifier.py)
-- ------------------------------------------------------------------

/-- The audit collaborator's parsed JSON verdict (verifier.py lines 36-44,
read back with `data.get(...)` at lines 66-95).  Each field is wrapped in
`Option` with `none` meaning "key absent", matching `dict.get` defaults;
`abstain_reason` is doubly wrapped because the schema allows an explicit
JSON null ("str or null"), which `data.get` returns as-is. -/
structure AuditData where
  overclaim_detected : Option Bool
  missing_assumptions : Option (List String)
  required_disclaimers : Option (List String)
  confidence_adjustment : Option String
  recommend_abstain : Option Bool
  abstain_reason : Option (Option String)
deriving DecidableEq

/-- verifier.py line 17: the set of step ids with a SUCCESS record. -/
def executedIds (l : ExecutionLog) : List Int :=
  (l.log.filter (fun e => e.status = "success")).map (fun e => e.step_id)

/-- verifier.py lines 16-19: coverage dict — for each plan step, whether a
SUCCESS record with its id exists. -/
def coverageMap (plan : ResearchPlan) (l : ExecutionLog) : List (Int × Bool) :=
  plan.steps.foldl
    (fun cov step => dictInsert cov step.id (decide (step.id ∈ executedIds l)))
    []

/-- verifier.py `Verifier.verify` (lines 12-109).  The LLM audit call plus
JSON decode is the `audit` argument: `Except.error e` models any exception
inside the `try` block (unparseable or schema-invalid audit response),
landing in the fail-closed handler of lines 98-109; `Except.ok data` a
successfully parsed verdict.  `coverage_fail_count > len(steps)/2` (exact
rational comparison in Python) is embedded as `2 * fail_count > len`. -/
def Verifier.verify (plan : ResearchPlan) (execution_log : ExecutionLog)
    (audit : Except String AuditData) : VerificationOutput :=
  let coverage := coverageMap plan execution_log
  let all_covered := (coverage.map Prod.snd).all (fun b => b)
  let coverage_fail_count := (coverage.map Prod.snd).count false
  match audit with
  | Except.error e =>
    { status := "fail",
      final_outcome := FinalOutcome.abstained,
      abstention_reason := some ("Verification process failed: " ++ e),
      coverage_check := coverage,
      overclaim_detected := true,
      missing_assumptions := ["Verification process failed"],
      required_disclaimers := ["System integrity check failed"],
      confidence_adjustment := "downgrade" }
  | Except.ok data =>
    if data.recommend_abstain.getD false then
      { status := "warn",
        final_outcome := FinalOutcome.abstained,
        abstention_reason :=
          match data.abstain_reason with
          | Option.none =>
            some "Verifier recommended abstention due to content analysis."
          | some v => v,
        coverage_check := coverage,
        overclaim_detected := data.overclaim_detected.getD false,
        missing_assumptions := data.missing_assumptions.getD [],
        required_disclaimers := data.required_disclaimers.getD [],
        confidence_adjustment := data.confidence_adjustment.getD "none" }
    else if 2 * coverage_fail_count > plan.steps.length then
      { status := "fail",
        final_outcome := FinalOutcome.abstained,
        abstention_reason :=
          some "Critical execution failure: Majority of research steps failed.",
        coverage_check := coverage,
        overclaim_detected := data.overclaim_detected.getD false,
        missing_assumptions := data.missing_assumptions.getD [],
        required_disclaimers := data.required_disclaimers.getD [],
        confidence_adjustment := data.confidence_adjustment.getD "none" }
    else if (executedIds execution_log).isEmpty then
      { status := "fail",
        final_outcome := FinalOutcome.abstained,
        abstention_reason := some "Total execution failure: No steps completed.",
        coverage_check := coverage,
        overclaim_detected := data.overclaim_detected.getD false,
        missing_assumptions := data.missing_assumptions.getD [],
        required_disclaimers := data.required_disclaimers.getD [],
        confidence_adjustment := data.confidence_adjustment.getD "none" }
    else
      { status :=
          if data.overclaim_detected.getD false || !all_covered ||
              data.confidence_adjustment == some "downgrade" then "warn"
          else "pass",
        final_outcome := FinalOutcome.answered,
        abstention_reason := Option.none,
        coverage_check := coverage,
        overclaim_detected := data.overclaim_detected.getD false,
        missing_assumptions := data.missing_assumptions.getD [],
        required_disclaimers := data.required_disclaimers.getD [],
        confidence_adjustment := data.confidence_adjustment.getD "none" }

/-- The number of plan steps with no SUCCESS record in the log (the
quantity the spec calls `failed_count`). -/
def failedStepCount (plan : ResearchPlan) (l : ExecutionLog) : Nat :=
  (plan.steps.filter (fun s => decide (s.id ∉ executedIds l))).length

/-- An audit verdict with every optional key absent. -/
def auditAllAbsent : AuditData :=
  { overclaim_detected := Option.none, missing_assumptions := Option.none,
    required_disclaimers := Option.none, confidence_adjustment := Option.none,
    recommend_abstain := Option.none, abstain_reason := Option.none }

/-- An audit verdict recommending abstention, with no abstain_reason key. -/
def auditRecommendAbstain : AuditData :=
  { auditAllAbsent with recommend_abstain := some true }

/-- An audit verdict recommending abstention whose abstain_reason key is
present with an explicit JSON null (the "str or null" shape the audit
prompt schema invites). -/
def auditNullReason : AuditData :=
  { auditAllAbsent with
    recommend_abstain := some true,
    abstain_reason := some Option.none }

/-- A one-step plan. -/
def planOneResearch : ResearchPlan :=
  { research_goal := "g", assumptions := [],
    steps := [{ id := 1, type := StepType.research, description := "topic",
                inputs := Option.none, constraints := Option.none }],
    stop_conditions := [("max_steps", 10)] }

/-- A plan with a duplicated step identifier. -/
def planDupIds : ResearchPlan :=
  { research_goal := "g", assumptions := [],
    steps := [{ id := 1, type := StepType.research, description := "a",
                inputs := Option.none, constraints := Option.none },
              { id := 1, type := StepType.research, description := "b",
                inputs := Option.none, constraints := Option.none }],
    stop_conditions := [("max_steps", 10)] }

/-- A valid three-step plan whose second step is a comparison. -/
def planFailAt2 : ResearchPlan :=
  { research_goal := "g", assumptions := [],
    steps := [{ id := 1, type := StepType.research, description := "a",
                inputs := Option.none, constraints := Option.none },
              { id := 2, type := StepType.compare, description := "b",
                inputs := some [1], constraints := Option.none },
              { id := 3, type := StepType.research, description := "c",
                inputs := Option.none, constraints := Option.none }],
    stop_conditions := [("max_steps", 10)] }

/-- An environment whose comparison LLM call always raises. -/
def envCompareDown : Env :=
  { stressChoice := fun _ => StressKind.sparse,
    compareResp := fun _ => Except.error "boom" }

-- ------------------------------------------------------------------
-- Theorems
-- ------------------------------------------------------------------

lemma cleanIds_go (ids : List JsonTok) : ∀ acc : List Int,
    ids.foldl
      (fun acc i =>
        match i with
        | JsonTok.intTok n => acc ++ [n]
        | JsonTok.strTok s =>
          let digit_str := digitsOf s
          if digit_str = "" then acc else acc ++ [digitsToInt digit_str])
      acc = acc ++ ids.filterMap coerceTokClaim := by
  induction ids with
  | nil => intro acc; simp
  | cons i rest ih =>
    intro acc
    cases i with
    | intTok n =>
      simp only [List.foldl_cons, List.filterMap_cons, coerceTokClaim]
      rw [ih]
      simp
    | strTok s =>
      simp only [List.foldl_cons, List.filterMap_cons, coerceTokClaim]
      by_cases h : digitsOf s = ""
      · simp only [h, if_pos rfl]
        rw [ih]
        simp [h]
      · simp only [if_neg h]
        rw [ih]
        simp [h]

/-- C7: the Synthesizer's supported_by coercion keeps integer tokens,
replaces digit-bearing string tokens by the integer formed from their
digits, silently drops digit-free string tokens; and on the concrete input
from the spec, the dict with "H1" mapped to the raw list 1, "Step_3", "x"
is cleaned to "H1" mapped to the integer list 1, 3. -/
theorem synthesizer_supported_by_coercion :
    (∀ ids : List JsonTok, cleanIds ids = ids.filterMap coerceTokClaim) ∧
    cleanSupportedBy
        [("H1", [JsonTok.intTok 1, JsonTok.strTok "Step_3", JsonTok.strTok "x"])] =
      [("H1", [(1 : Int), 3])] := by
  constructor
  · intro ids
    have h := cleanIds_go ids []
    simpa [cleanIds] using h
  · decide

/-- C7 witness-style corollary: the concrete cleaning instance, obtained by
applying the coercion theorem. -/
theorem synthesizer_supported_by_coercion_example :
    cleanSupportedBy
        [("H1", [JsonTok.intTok 1, JsonTok.strTok "Step_3", JsonTok.strTok "x"])] =
      [("H1", [(1 : Int), 3])] :=
  synthesizer_supported_by_coercion.2

lemma validateFrom_iff (steps : List ResearchStep) : ∀ seen : List Int,
    validateFrom seen steps = true ↔
      ((steps.map (fun s => s.id)).Nodup ∧
       (∀ s ∈ steps, s.id ∉ seen) ∧
       (∀ i, ∀ hi : i < steps.length,
          ∀ x ∈ (steps.get ⟨i, hi⟩).inputs.getD [],
            x ∈ seen ∨ x ∈ ((steps.take i).map (fun s => s.id)))) := by
  induction steps with
  | nil =>
    intro seen
    simp [validateFrom]
  | cons s rest ih =>
    intro seen
    simp only [validateFrom]
    by_cases hdup : s.id ∈ seen
    · simp only [if_pos hdup]
      constructor
      · intro h; exact absurd h (by simp)
      · rintro ⟨-, hseen, -⟩
        exact absurd hdup (hseen s (by simp))
    · simp only [if_neg hdup]
      by_cases hins : (s.inputs.getD []).all (fun x => decide (x ∈ seen)) = true
      · simp only [if_pos hins, ih (s.id :: seen)]
        rw [List.all_eq_true] at hins
        constructor
        · rintro ⟨hnd, hsn, hidx⟩
          refine ⟨?_, ?_, ?_⟩
          · simp only [List.map_cons, List.nodup_cons]
            refine ⟨?_, hnd⟩
            intro hmem
            rw [List.mem_map] at hmem
            obtain ⟨t, ht, hts⟩ := hmem
            exact hsn t ht (by simp [hts])
          · intro t ht
            rcases List.mem_cons.mp ht with h | h
            · subst h; exact hdup
            · intro hc; exact hsn t h (List.mem_cons_of_mem _ hc)
          · intro i hi x hx
            cases i with
            | zero =>
              left
              have := hins x (by simpa using hx)
              simpa using this
            | succ j =>
              have hj : j < rest.length := Nat.lt_of_succ_lt_succ hi
              have := hidx j hj x (by simpa using hx)
              rcases this with h | h
              · rcases List.mem_cons.mp h with h' | h'
                · right
                  simp [List.take_succ_cons, h']
                · left; exact h'
              · right
                simp [List.take_succ_cons]
                right
                simpa using h
        · rintro ⟨hnd, hsn, hidx⟩
          simp only [List.map_cons, List.nodup_cons] at hnd
          refine ⟨hnd.2, ?_, ?_⟩
          · intro t ht hc
            rcases List.mem_cons.mp hc with h | h
            · exact hnd.1 (List.mem_map.mpr ⟨t, ht, h⟩)
            · exact hsn t (List.mem_cons_of_mem _ ht) h
          · intro i hi x hx
            have := hidx (i + 1) (Nat.succ_lt_succ hi) x (by simpa using hx)
            rcases this with h | h
            · left; exact List.mem_cons_of_mem _ h
            · simp only [List.take_succ_cons, List.map_cons, List.mem_cons] at h
              rcases h with h | h
              · left; simp [h]
              · right; exact h
      · simp only [if_neg hins]
        constructor
        · intro h; exact absurd h (by simp)
        · rintro ⟨-, -, hidx⟩
          exfalso
          apply hins
          rw [List.all_eq_true]
          intro x hx
          have := hidx 0 (by simp) x (by simpa using hx)
          rcases this with h | h
          · simpa using h
          · simp at h

/-- C1: the Dependency Validator accepts a plan iff the step identifiers
are pairwise distinct and every identifier in every step's declared inputs
is the identifier of a step appearing strictly earlier in the sequence
(so a self-reference, a forward reference or a nonexistent reference is
rejected). -/
theorem validate_plan_accepts_iff (plan : ResearchPlan) :
    Executor.validate_plan plan = true ↔
      ((plan.steps.map (fun s => s.id)).Nodup ∧
       ∀ i, ∀ hi : i < plan.steps.length,
         ∀ x ∈ (plan.steps.get ⟨i, hi⟩).inputs.getD [],
           x ∈ ((plan.steps.take i).map (fun s => s.id))) := by
  rw [Executor.validate_plan, validateFrom_iff]
  constructor
  · rintro ⟨hnd, -, hidx⟩
    refine ⟨hnd, ?_⟩
    intro i hi x hx
    rcases hidx i hi x hx with h | h
    · simp at h
    · exact h
  · rintro ⟨hnd, hidx⟩
    refine ⟨hnd, by simp, ?_⟩
    intro i hi x hx
    exact Or.inr (hidx i hi x hx)

/-- C1 witness: applying the validator characterization at a concrete
accepted plan. -/
theorem validate_plan_accepts_iff_example :
    ({ research_goal := "g", assumptions := [],
       steps :=
         [{ id := 1, type := StepType.research, description := "a",
            inputs := Option.none, constraints := Option.none },
          { id := 2, type := StepType.compare, description := "b",
            inputs := some [1], constraints := Option.none }],
       stop_conditions := [("max_steps", 10)] : ResearchPlan}.steps.map
        (fun s => s.id)).Nodup :=
  (validate_plan_accepts_iff _).mp (by decide) |>.1

/-- C9 counterexample: in STRESS_TEST mode `execute_compare` does not
return one fixed artifact regardless of input — two inputs differing in
their dimensions list produce different artifacts. -/
theorem execute_compare_stress_not_input_independent :
    execute_compare
        { items := [("X", { topic := "t", summary := "s", key_points := [],
                            assumptions := [], confidence := "low", gaps := [],
                            sources := Option.none })],
          dimensions := ["a"] }
        (Except.ok Option.none) ExecutionMode.stress_test =
      Except.ok
        { dimensions := ["a"],
          contrasts := [("a", [("X", "Ambiguous data prevented clear contrast")])],
          tradeoffs := ["Unable to determine clear tradeoffs due to data noise."],
          uncertainties := ["High uncertainty in input data reliability."] } ∧
    execute_compare
        { items := [("X", { topic := "t", summary := "s", key_points := [],
                            assumptions := [], confidence := "low", gaps := [],
                            sources := Option.none })],
          dimensions := ["b"] }
        (Except.ok Option.none) ExecutionMode.stress_test =
      Except.ok
        { dimensions := ["b"],
          contrasts := [("b", [("X", "Ambiguous data prevented clear contrast")])],
          tradeoffs := ["Unable to determine clear tradeoffs due to data noise."],
          uncertainties := ["High uncertainty in input data reliability."] } ∧
    ({ dimensions := ["a"],
       contrasts := [("a", [("X", "Ambiguous data prevented clear contrast")])],
       tradeoffs := ["Unable to determine clear tradeoffs due to data noise."],
       uncertainties := ["High uncertainty in input data reliability."] } :
        ComparisonOutput) ≠
      { dimensions := ["b"],
        contrasts := [("b", [("X", "Ambiguous data prevented clear contrast")])],
        tradeoffs := ["Unable to determine clear tradeoffs due to data noise."],
        uncertainties := ["High uncertainty in input data reliability."] } := by
  refine ⟨rfl, rfl, ?_⟩
  decide

lemma ambiguousContrasts_inner_keys_only
    (items₁ items₂ : List (String × ResearchOutput))
    (h : items₁.map Prod.fst = items₂.map Prod.fst) : ∀ inner,
    items₁.foldl
        (fun inner p =>
          dictInsert inner p.1 "Ambiguous data prevented clear contrast") inner =
      items₂.foldl
        (fun inner p =>
          dictInsert inner p.1 "Ambiguous data prevented clear contrast") inner := by
  induction items₁ generalizing items₂ with
  | nil =>
    cases items₂ with
    | nil => intro inner; rfl
    | cons q qs => simp at h
  | cons p ps ih =>
    cases items₂ with
    | nil => simp at h
    | cons q qs =>
      simp only [List.map_cons, List.cons.injEq] at h
      intro inner
      simp only [List.foldl_cons, h.1]
      exact ih qs h.2 _

/-- C9 amended: in STRESS_TEST mode the comparison artifact is determined
solely by the input's dimensions list and item names (item contents and the
LLM response are ignored), every contrast cell being the fixed string
"Ambiguous data prevented clear contrast" with fixed tradeoffs and
uncertainties. -/
theorem execute_compare_stress_depends_only_on_shape
    (inp₁ inp₂ : ComparisonInput)
    (resp₁ resp₂ : Except String (Option ComparisonOutput))
    (hdim : inp₁.dimensions = inp₂.dimensions)
    (hkeys : inp₁.items.map Prod.fst = inp₂.items.map Prod.fst) :
    execute_compare inp₁ resp₁ ExecutionMode.stress_test =
      execute_compare inp₂ resp₂ ExecutionMode.stress_test := by
  simp only [execute_compare, ambiguousContrasts, hdim]
  rw [show
    (inp₁.items.foldl
      (fun inner p =>
        dictInsert inner p.1 "Ambiguous data prevented clear contrast") []) =
    (inp₂.items.foldl
      (fun inner p =>
        dictInsert inner p.1 "Ambiguous data prevented clear contrast") [])
    from ambiguousContrasts_inner_keys_only inp₁.items inp₂.items hkeys []]

/-- C9 amended witness: two stress-mode inputs with the same dimensions and
item names but different item contents yield equal artifacts. -/
theorem execute_compare_stress_depends_only_on_shape_example :
    execute_compare
        { items := [("X", { topic := "t1", summary := "s1", key_points := ["k"],
                            assumptions := [], confidence := "high", gaps := [],
                            sources := Option.none })],
          dimensions := ["d"] }
        (Except.ok Option.none) ExecutionMode.stress_test =
      execute_compare
        { items := [("X", { topic := "t2", summary := "s2", key_points := [],
                            assumptions := ["a"], confidence := "low", gaps := ["g"],
                            sources := some ["s"] })],
          dimensions := ["d"] }
        (Except.error "llm down") ExecutionMode.stress_test :=
  execute_compare_stress_depends_only_on_shape _ _ _ _ rfl rfl

-- ------------------------------------------------------------------
-- C10: ExecutionLog.add_entry record/artifact behavior
-- ------------------------------------------------------------------

/-- C10 counterexample: a call with status "error" and the non-None but
falsy output "" (the empty string) does NOT register anything in the
artifacts map, although the claim says a non-None output with error status
still registers. -/
theorem add_entry_error_nonnone_falsy_not_registered :
    (emptyLog.add_entry 1 "error" (PyObj.str "") Option.none).artifacts = [] ∧
    PyObj.str "" ≠ PyObj.none := by
  decide

/-- C10 amended: the appended record's output equals the output argument
when status is "success" and is None otherwise (so it is non-None only on
success); the artifacts map registers the output for the step id exactly
when the output argument is truthy, independently of status — in
particular an error-status call with a truthy output still registers it,
while any call with a falsy output (None, or a non-None falsy value such
as the empty string) registers nothing. -/
theorem add_entry_output_and_artifacts (l : ExecutionLog) (sid : Int)
    (st : String) (out : PyObj) (err : Option String) :
    ((l.add_entry sid st out err).log.map (fun r => (r.step_id, r.status)) =
        l.log.map (fun r => (r.step_id, r.status)) ++ [(sid, st)]) ∧
    (st = "success" →
      (l.add_entry sid st out err).log.map (fun r => r.output) =
        l.log.map (fun r => r.output) ++ [out]) ∧
    (st ≠ "success" →
      (l.add_entry sid st out err).log.map (fun r => r.output) =
        l.log.map (fun r => r.output) ++ [PyObj.none]) ∧
    (out.truthy = true →
      (l.add_entry sid st out err).artifacts = dictInsert l.artifacts sid out) ∧
    (out.truthy = true →
      dictLookup (l.add_entry sid st out err).artifacts sid = some out) ∧
    (out.truthy = false →
      (l.add_entry sid st out err).artifacts = l.artifacts) := by
  refine ⟨?_, ?_, ?_, ?_, ?_, ?_⟩
  · simp [ExecutionLog.add_entry]
  · intro h; simp [ExecutionLog.add_entry, h]
  · intro h; simp [ExecutionLog.add_entry, h]
  · intro h; simp [ExecutionLog.add_entry, h]
  · intro h
    simp only [ExecutionLog.add_entry, h, if_pos]
    induction l.artifacts with
    | nil => simp [dictInsert, dictLookup]
    | cons p rest ih =>
      by_cases hk : p.1 = sid
      · simp [dictInsert, dictLookup, hk]
      · simpa [dictInsert, dictLookup, hk] using ih
  · intro h; simp [ExecutionLog.add_entry, h]

/-- C10 amended witness: an error-status call with the truthy output
"artifact" appends one error record with None output and registers the
output under the step id. -/
theorem add_entry_output_and_artifacts_example :
    ((emptyLog.add_entry 1 "error" (PyObj.str "artifact") (some "boom")).log.map
        (fun r => r.output) = [PyObj.none]) ∧
    dictLookup (emptyLog.add_entry 1 "error" (PyObj.str "artifact")
        (some "boom")).artifacts 1 = some (PyObj.str "artifact") :=
  ⟨by
    have h :=
      (add_entry_output_and_artifacts emptyLog 1 "error" (PyObj.str "artifact")
        (some "boom")).2.2.1 (by decide)
    simpa [emptyLog] using h,
   (add_entry_output_and_artifacts emptyLog 1 "error" (PyObj.str "artifact")
        (some "boom")).2.2.2.2.1 (by decide)⟩

lemma execute_step_appends (env : Env) (mode : ExecutionMode)
    (l : ExecutionLog) (step : ResearchStep) :
    ∃ rec : StepRecord,
      (Executor.execute_step env mode l step).1.log = l.log ++ [rec] ∧
      rec.step_id = step.id ∧
      rec.status =
        (if (Executor.execute_step env mode l step).2 then "success"
         else "error") := by
  obtain ⟨sid, stype, desc, sinputs, scons⟩ := step
  cases stype with
  | research => exact ⟨_, rfl, rfl, rfl⟩
  | synthesize => exact ⟨_, rfl, rfl, rfl⟩
  | compare =>
    by_cases hitems : collectCompareItems l (sinputs.getD []) = []
    · refine ⟨⟨sid, "error", PyObj.none,
        some "Comparison step requires at least one valid ResearchOutput input."⟩,
        ?_, rfl, ?_⟩ <;>
        simp [Executor.execute_step, hitems, ExecutionLog.add_entry]
    · cases hresp : execute_compare
          { items := collectCompareItems l (sinputs.getD []),
            dimensions :=
              match scons with
              | some (c :: cs) => c :: cs
              | _ => ["general"] }
          (env.compareResp
            { items := collectCompareItems l (sinputs.getD []),
              dimensions :=
                match scons with
                | some (c :: cs) => c :: cs
                | _ => ["general"] }) mode with
      | ok result =>
        refine ⟨⟨sid, "success", PyObj.comparison result, Option.none⟩,
          ?_, rfl, ?_⟩ <;>
          simp [Executor.execute_step, hitems, hresp, ExecutionLog.add_entry]
      | error e =>
        refine ⟨⟨sid, "error", PyObj.none, some e⟩, ?_, rfl, ?_⟩ <;>
          simp [Executor.execute_step, hitems, hresp, ExecutionLog.add_entry]

lemma runSteps_shape (env : Env) (mode : ExecutionMode) :
    ∀ (steps : List ResearchStep) (k : Nat) (l : ExecutionLog),
      firstFailAt env mode l steps k = true →
      ∃ recs : List StepRecord,
        (Executor.runSteps env mode l steps).log = l.log ++ recs ∧
        recs.map (fun r => r.step_id) =
          (steps.take (k + 1)).map (fun s => s.id) ∧
        (∀ i, ∀ hi : i < recs.length,
          (recs.get ⟨i, hi⟩).status = if i = k then "error" else "success") ∧
        ((recs.filter (fun r => r.status = "success")).map (fun r => r.step_id) =
          (steps.take k).map (fun s => s.id)) := by
  intro steps
  induction steps with
  | nil => intro k l h; simp [firstFailAt] at h
  | cons s rest ih =>
    intro k l h
    cases k with
    | zero =>
      simp only [firstFailAt, Bool.not_eq_true'] at h
      obtain ⟨rec, hlog, hid, hst⟩ := execute_step_appends env mode l s
      rw [h] at hst
      simp only [if_neg (by simp : ¬ (false : Bool) = true)] at hst
      refine ⟨[rec], ?_, ?_, ?_, ?_⟩
      · simp only [Executor.runSteps, h]
        simpa using hlog
      · simp [hid]
      · intro i hi
        have hi0 : i = 0 := Nat.lt_one_iff.mp (by simpa using hi)
        subst hi0
        simp [hst]
      · simp [hst]
    | succ k' =>
      simp only [firstFailAt, Bool.and_eq_true] at h
      obtain ⟨hok, htail⟩ := h
      obtain ⟨rec, hlog, hid, hst⟩ := execute_step_appends env mode l s
      rw [hok] at hst
      simp only [if_true] at hst
      obtain ⟨recs, hlog', hids', hsts', hfil'⟩ :=
        ih k' (Executor.execute_step env mode l s).1 htail
      refine ⟨rec :: recs, ?_, ?_, ?_, ?_⟩
      · simp [Executor.runSteps, hok, hlog', hlog]
      · simp [hid, hids']
      · intro i hi
        cases i with
        | zero => simp [hst]
        | succ j =>
          have hj : j < recs.length := Nat.lt_of_succ_lt_succ hi
          have := hsts' j hj
          simp only [List.get_cons_succ]
          rw [this]
          by_cases hjk : j = k'
          · simp [hjk]
          · simp [hjk, fun hc => hjk (Nat.succ_injective hc)]
      · simp only [List.filter_cons, hst, decide_True, if_pos]
        simp only [List.map_cons, hfil', List.take_succ_cons]
        simp [hid]

lemma dictInsert_fresh {α β : Type} [DecidableEq α] (d : List (α × β)) (k : α)
    (v : β) (h : k ∉ d.map Prod.fst) : dictInsert d k v = d ++ [(k, v)] := by
  induction d with
  | nil => rfl
  | cons p rest ih =>
    obtain ⟨pk, pv⟩ := p
    simp only [List.map_cons, List.mem_cons, not_or] at h
    have hne : ¬ pk = k := fun hc => h.1 hc.symm
    simp only [dictInsert, if_neg hne, List.cons_append, List.cons.injEq, true_and]
    exact ih h.2

lemma coverage_foldl (l : ExecutionLog) :
    ∀ (steps : List ResearchStep) (acc : List (Int × Bool)),
      (∀ s ∈ steps, s.id ∉ acc.map Prod.fst) →
      (steps.map (fun s => s.id)).Nodup →
      steps.foldl
          (fun cov step =>
            dictInsert cov step.id (decide (step.id ∈ executedIds l))) acc =
        acc ++ steps.map (fun s => (s.id, decide (s.id ∈ executedIds l))) := by
  intro steps
  induction steps with
  | nil => intro acc _ _; simp
  | cons s rest ih =>
    intro acc hacc hnd
    simp only [List.map_cons, List.nodup_cons] at hnd
    simp only [List.foldl_cons]
    rw [dictInsert_fresh acc s.id _ (hacc s (by simp))]
    rw [ih (acc ++ [(s.id, decide (s.id ∈ executedIds l))]) ?_ hnd.2]
    · simp
    · intro t ht
      simp only [List.map_append, List.mem_append, List.map_cons]
      rintro (hc | hc)
      · exact hacc t (by simp [ht]) hc
      · simp only [List.map_nil, List.mem_singleton] at hc
        exact hnd.1 (List.mem_map.mpr ⟨t, ht, hc⟩)

lemma coverageMap_eq (plan : ResearchPlan) (l : ExecutionLog)
    (hnd : (plan.steps.map (fun s => s.id)).Nodup) :
    coverageMap plan l =
      plan.steps.map (fun s => (s.id, decide (s.id ∈ executedIds l))) := by
  have h := coverage_foldl l plan.steps [] (by simp) hnd
  simpa [coverageMap] using h

lemma dictLookup_mapped (f : ResearchStep → Bool) :
    ∀ (steps : List ResearchStep),
      (steps.map (fun s => s.id)).Nodup →
      ∀ j, ∀ hj : j < steps.length,
        dictLookup (steps.map (fun s => (s.id, f s))) (steps.get ⟨j, hj⟩).id =
          some (f (steps.get ⟨j, hj⟩)) := by
  intro steps
  induction steps with
  | nil => intro _ j hj; simp at hj
  | cons s rest ih =>
    intro hnd j hj
    simp only [List.map_cons, List.nodup_cons] at hnd
    cases j with
    | zero => simp [dictLookup]
    | succ j' =>
      have hj' : j' < rest.length := Nat.lt_of_succ_lt_succ hj
      have hne : s.id ≠ (rest.get ⟨j', hj'⟩).id := by
        intro hc
        exact hnd.1 (List.mem_map.mpr ⟨rest.get ⟨j', hj'⟩, List.get_mem _ _ _, hc.symm⟩)
      simp only [List.map_cons, List.get_cons_succ, dictLookup, if_neg hne]
      exact ih hnd.2 j' hj'

lemma verify_coverage_check (plan : ResearchPlan) (l : ExecutionLog)
    (audit : Except String AuditData) :
    (Verifier.verify plan l audit).coverage_check = coverageMap plan l := by
  cases audit with
  | error e => rfl
  | ok d =>
    simp only [Verifier.verify]
    by_cases h1 : d.recommend_abstain.getD false = true
    · simp [h1]
    · simp only [h1]
      by_cases h2 :
          2 * ((coverageMap plan l).map Prod.snd).count false > plan.steps.length
      · simp [h2]
      · simp only [h2]
        by_cases h3 : (executedIds l).isEmpty = true
        · simp [h3]
        · simp [h3]

lemma coverage_fail_count_eq (plan : ResearchPlan) (l : ExecutionLog)
    (hnd : (plan.steps.map (fun s => s.id)).Nodup) :
    ((coverageMap plan l).map Prod.snd).count false = failedStepCount plan l := by
  rw [coverageMap_eq plan l hnd, List.map_map]
  simp only [failedStepCount]
  rw [List.count_eq_countP, List.countP_map, ← List.countP_eq_length_filter]
  apply List.countP_congr
  intro s _
  by_cases h : s.id ∈ executedIds l <;> simp [h]

lemma validate_plan_nodup (plan : ResearchPlan)
    (h : Executor.validate_plan plan = true) :
    (plan.steps.map (fun s => s.id)).Nodup :=
  ((validateFrom_iff plan.steps []).mp h).1

/-- C3: an unparseable audit response makes `Verifier.verify` fail closed:
status "fail", outcome ABSTAINED, a reason naming the verification/parse
failure, overclaim forced true and confidence adjustment forced
"downgrade" — never a pass. -/
theorem verify_fails_closed_on_unparseable_audit (plan : ResearchPlan)
    (l : ExecutionLog) (e : String) :
    (Verifier.verify plan l (Except.error e)).status = "fail" ∧
    (Verifier.verify plan l (Except.error e)).final_outcome =
      FinalOutcome.abstained ∧
    (Verifier.verify plan l (Except.error e)).abstention_reason =
      some ("Verification process failed: " ++ e) ∧
    (Verifier.verify plan l (Except.error e)).overclaim_detected = true ∧
    (Verifier.verify plan l (Except.error e)).confidence_adjustment =
      "downgrade" :=
  ⟨rfl, rfl, rfl, rfl, rfl⟩

/-- C3 witness-style corollary at a concrete input. -/
theorem verify_fails_closed_on_unparseable_audit_example :
    (Verifier.verify planOneResearch emptyLog
        (Except.error "Expecting value: line 1 column 1")).status = "fail" :=
  (verify_fails_closed_on_unparseable_audit planOneResearch emptyLog
      "Expecting value: line 1 column 1").1

/-- C2: for a plan with pairwise distinct step identifiers, when strictly
more than half of the plan steps lack a SUCCESS record, the verifier's
final outcome is ABSTAINED whatever the audit verdict is — including an
audit that recommends abstention and an unparseable audit. -/
theorem verify_abstains_on_majority_failure (plan : ResearchPlan)
    (l : ExecutionLog) (audit : Except String AuditData)
    (hnd : (plan.steps.map (fun s => s.id)).Nodup)
    (hmaj : 2 * failedStepCount plan l > plan.steps.length) :
    (Verifier.verify plan l audit).final_outcome = FinalOutcome.abstained := by
  cases audit with
  | error e => rfl
  | ok d =>
    simp only [Verifier.verify]
    by_cases h1 : d.recommend_abstain.getD false = true
    · simp [h1]
    · have hcnt := coverage_fail_count_eq plan l hnd
      simp [h1, hcnt, hmaj]

/-- C2 witness: a one-step plan with an empty log abstains even though the
audit verdict is entirely silent. -/
theorem verify_abstains_on_majority_failure_example :
    (Verifier.verify planOneResearch emptyLog
        (Except.ok auditAllAbsent)).final_outcome = FinalOutcome.abstained :=
  verify_abstains_on_majority_failure planOneResearch emptyLog
    (Except.ok auditAllAbsent) (by decide) (by decide)

/-- C5 counterexample: with zero SUCCESS records but an audit that
recommends abstention, the verifier abstains with status "warn", not
"fail" — refuting the claim that the status is "fail" irrespective of the
audit verdict's content. -/
theorem verify_zero_success_warn_status :
    (Verifier.verify planOneResearch emptyLog
        (Except.ok auditRecommendAbstain)).final_outcome =
      FinalOutcome.abstained ∧
    (Verifier.verify planOneResearch emptyLog
        (Except.ok auditRecommendAbstain)).status = "warn" ∧
    (Verifier.verify planOneResearch emptyLog
        (Except.ok auditRecommendAbstain)).status ≠ "fail" := by
  decide

/-- C5 amended: whenever the log contains no SUCCESS record at all, the
verifier's final outcome is ABSTAINED for every audit verdict; its status
is "fail" except when a parsed audit recommends abstention, in which case
it is "warn". -/
theorem verify_abstains_on_zero_success (plan : ResearchPlan)
    (l : ExecutionLog) (audit : Except String AuditData)
    (hzero : l.log.filter (fun e => e.status = "success") = []) :
    (Verifier.verify plan l audit).final_outcome = FinalOutcome.abstained ∧
    (Verifier.verify plan l audit).status =
      (match audit with
       | Except.ok d =>
         if d.recommend_abstain.getD false then "warn" else "fail"
       | Except.error _ => "fail") := by
  have hids : executedIds l = [] := by
    simp [executedIds, hzero]
  cases audit with
  | error e => exact ⟨rfl, rfl⟩
  | ok d =>
    simp only [Verifier.verify]
    by_cases h1 : d.recommend_abstain.getD false = true
    · simp [h1]
    · by_cases h2 :
          2 * ((coverageMap plan l).map Prod.snd).count false > plan.steps.length
      · simp [h1, h2]
      · simp [h1, h2, hids]

/-- C5 amended witness: one-step plan, empty log, abstention-recommending
audit — outcome ABSTAINED with status "warn". -/
theorem verify_abstains_on_zero_success_example :
    (Verifier.verify planOneResearch emptyLog
        (Except.ok auditRecommendAbstain)).final_outcome =
      FinalOutcome.abstained ∧
    (Verifier.verify planOneResearch emptyLog
        (Except.ok auditRecommendAbstain)).status = "warn" :=
  ⟨(verify_abstains_on_zero_success planOneResearch emptyLog
      (Except.ok auditRecommendAbstain) (by decide)).1,
   (verify_abstains_on_zero_success planOneResearch emptyLog
      (Except.ok auditRecommendAbstain) (by decide)).2⟩

/-- C6: evaluating the code at the failing input — an audit that
recommends abstention and carries an explicit null abstain_reason makes
the verifier return outcome ABSTAINED with abstention_reason None: a bare
abstention with no explanation (the generic default only covers a missing
key, not an explicit null). -/
theorem verify_abstained_with_null_reason :
    (Verifier.verify planOneResearch emptyLog
        (Except.ok auditNullReason)).final_outcome = FinalOutcome.abstained ∧
    (Verifier.verify planOneResearch emptyLog
        (Except.ok auditNullReason)).abstention_reason = Option.none := by
  decide

/-- C8 counterexample: on a plan with a duplicated step identifier the
coverage dict collapses the two steps into one entry, so its size differs
from the plan's step count. -/
theorem verify_coverage_size_mismatch_on_duplicate_ids :
    (Verifier.verify planDupIds emptyLog
        (Except.ok auditAllAbsent)).coverage_check.length ≠
      planDupIds.steps.length := by
  decide

/-- C8 amended: for every plan with pairwise distinct step identifiers and
every ExecutionLog and audit verdict, the coverage map returned by
`Verifier.verify` has exactly as many entries as the plan has steps. -/
theorem verify_coverage_size_eq_steps (plan : ResearchPlan)
    (l : ExecutionLog) (audit : Except String AuditData)
    (hnd : (plan.steps.map (fun s => s.id)).Nodup) :
    (Verifier.verify plan l audit).coverage_check.length =
      plan.steps.length := by
  rw [verify_coverage_check, coverageMap_eq plan l hnd, List.length_map]

/-- C8 amended witness at a concrete distinct-id plan. -/
theorem verify_coverage_size_eq_steps_example :
    (Verifier.verify planOneResearch emptyLog
        (Except.ok auditAllAbsent)).coverage_check.length =
      planOneResearch.steps.length :=
  verify_coverage_size_eq_steps planOneResearch emptyLog
    (Except.ok auditAllAbsent) (by decide)

lemma get_not_mem_take {α : Type} (l : List α) (hnd : l.Nodup) (k j : Nat)
    (hkj : k ≤ j) (hj : j < l.length) : l.get ⟨j, hj⟩ ∉ l.take k := by
  intro hmem
  obtain ⟨i, hget⟩ := List.mem_iff_get.mp hmem
  have hik : (i : Nat) < k := lt_of_lt_of_le i.isLt (by simp [List.length_take])
  have hil : (i : Nat) < l.length := lt_of_lt_of_le i.isLt (by simp)
  have hget' : l.get ⟨i, hil⟩ = l.get ⟨j, hj⟩ := by
    rw [← hget]
    simp
  have hij : (⟨i, hil⟩ : Fin l.length) = ⟨j, hj⟩ :=
    (List.Nodup.get_inj_iff hnd).mp hget'
  have : (i : Nat) = j := congrArg Fin.val hij
  omega

/-- C4: for a valid plan whose step at 0-based index k (position k+1) is
the first to fail during `Executor.run`, the resulting log holds exactly
one record per step at positions 1..k+1, in order — the last with ERROR
status and all earlier ones with SUCCESS status — and no record for any
later step; and for every audit verdict the coverage map computed by
`Verifier.verify` maps the failing step's id and every later step's id to
false. -/
theorem run_fail_fast_log_and_coverage (env : Env) (mode : ExecutionMode)
    (plan : ResearchPlan) (k : Nat)
    (hval : Executor.validate_plan plan = true)
    (hfail : firstFailAt env mode emptyLog plan.steps k = true) :
    ((Executor.run env mode plan).log.map (fun r => r.step_id) =
        (plan.steps.take (k + 1)).map (fun s => s.id)) ∧
    (∀ i, i < (Executor.run env mode plan).log.length →
      ((Executor.run env mode plan).log.get? i).map (fun r => r.status) =
        some (if i = k then "error" else "success")) ∧
    (∀ audit : Except String AuditData, ∀ j, k ≤ j →
      ∀ hj : j < plan.steps.length,
        dictLookup
            (Verifier.verify plan (Executor.run env mode plan)
              audit).coverage_check
            (plan.steps.get ⟨j, hj⟩).id = some false) := by
  have hnd : (plan.steps.map (fun s => s.id)).Nodup :=
    validate_plan_nodup plan hval
  have hrun : Executor.run env mode plan =
      Executor.runSteps env mode emptyLog plan.steps := by
    simp [Executor.run, hval]
  obtain ⟨recs, hlog, hids, hsts, hfil⟩ :=
    runSteps_shape env mode plan.steps k emptyLog hfail
  have hlog' : (Executor.run env mode plan).log = recs := by
    rw [hrun, hlog]; rfl
  have hexec : executedIds (Executor.run env mode plan) =
      (plan.steps.take k).map (fun s => s.id) := by
    rw [executedIds, hlog', hfil]
  refine ⟨?_, ?_, ?_⟩
  · rw [hlog']; exact hids
  · intro i hi
    rw [hlog'] at hi
    rw [hlog', List.get?_eq_get hi]
    simpa using hsts i hi
  · intro audit j hkj hj
    rw [verify_coverage_check, coverageMap_eq plan _ hnd,
      dictLookup_mapped _ plan.steps hnd j hj]
    have hnotin : plan.steps[j].id ∉
        ((plan.steps.map (fun s => s.id)).take k) := by
      have hj' : j < (plan.steps.map (fun s => s.id)).length := by simpa using hj
      have h := get_not_mem_take (plan.steps.map (fun s => s.id)) hnd k j hkj hj'
      simpa using h
    rw [hexec]
    simp [hnotin]

/-- C4 witness: a valid three-step plan whose comparison step (position 2,
index 1) fails because the comparison LLM call raises — the log holds
exactly the records of steps 1 and 2. -/
theorem run_fail_fast_log_and_coverage_example :
    Executor.validate_plan planFailAt2 = true ∧
    firstFailAt envCompareDown ExecutionMode.normal emptyLog
      planFailAt2.steps 1 = true ∧
    (Executor.run envCompareDown ExecutionMode.normal planFailAt2).log.map
        (fun r => r.step_id) = [(1 : Int), 2] :=
  ⟨by decide, by decide,
   (run_fail_fast_log_and_coverage envCompareDown ExecutionMode.normal
      planFailAt2 1 (by decide) (by decide)).1⟩
